import Mathlib

/-!
Shallow embedding of the WebSocket session core of lib/WebSocket.js
(the "ws" node.js client, HyBi-13).  Pure ports of the relevant
functions; the Encoder (Sender) and Decoder (Receiver) are external
collaborators per spec section 6, so an outbound frame is recorded as
the argument tuple of one Encoder call, and Decoder events are inputs
to the handler functions installed in the upgrade routine.
-/

/-- Ready state constants, lines 173-185 of WebSocket.js. -/
def CONNECTING : Nat := 0

/-- Ready state OPEN. -/
def OPEN : Nat := 1

/-- Ready state CLOSING. -/
def CLOSING : Nat := 2

/-- Ready state CLOSED. -/
def CLOSED : Nat := 3

/-- A JavaScript value as it flows through the send path: primitive data,
or a file ReadStream source (its chunk list). -/
inductive JsData where
  | undef
  | null
  | bool (b : Bool)
  | num (n : Int)
  | str (s : String)
  | readStream (chunks : List String)
deriving DecidableEq, Repr

/-- JavaScript truthiness test used by the coercion at line 269. -/
def JsData.falsy : JsData → Bool
  | JsData.undef => true
  | JsData.null => true
  | JsData.bool b => !b
  | JsData.num n => n == 0
  | JsData.str s => s == ""
  | JsData.readStream _ => false

/-- Test for the `data instanceof fs.ReadStream` branch at line 278. -/
def isStream : JsData → Bool
  | JsData.readStream _ => true
  | _ => false

/-- The options object taken by send, ping, pong and stream; a `none`
field is an undefined member. -/
structure JsOptions where
  mask : Option Bool := none
  binary : Option Bool := none
  fin : Option Bool := none
deriving DecidableEq, Repr

/-- One call on the Encoder (the Sender collaborator of spec section 6):
the frame kind with the argument tuple the session passes to it. -/
inductive Frame where
  | data (payload : JsData) (fin : Bool) (mask : Bool) (binary : Option Bool)
  | ping (payload : JsData) (mask : Bool) (binary : Option Bool)
  | pong (payload : JsData) (mask : Bool) (binary : Option Bool)
  | close (code : Option Nat) (reason : Option String) (mask : Bool)
deriving DecidableEq, Repr

/-- Observable effects of one synchronous run: Encoder calls, events
emitted to the application, user callback invocations, and ending the
transport. -/
inductive Ev where
  | frame (f : Frame)
  | openEv
  | closeEv (code : Option Nat) (reason : Option String)
  | messageEv (data : JsData) (binary : Bool)
  | pingEv (data : JsData)
  | errorEv (reason : String)
  | cb (err : Option String)
  | socketEnd
deriving DecidableEq, Repr

/-- Context of an in-flight multi-frame send: the resolved mask and
binary flags captured by the closure, and whether a user callback was
supplied. -/
structure StreamCtx where
  mask : Bool
  binary : Option Bool
  hasCb : Bool
deriving DecidableEq, Repr

/-- A deferred send action pushed on the queue, lines 270-273 and
308-311: the captured arguments of the re-invocation thunk. -/
inductive QueuedAction where
  | qsend (data : JsData) (options : Option JsOptions) (hasCb : Bool)
  | qstream (options : Option JsOptions) (hasCb : Bool)
deriving DecidableEq, Repr

/-- The per-session mutable state of WebSocket.js.  `socket` is the
presence of the `_socket` handle; `upgraded` records that the upgrade
routine has installed transport and receiver handlers; `upgradePending`
records a scheduled upgrade (client response handler, or the server
nextTick at lines 60-62); `streaming` is the sendStream context;
`userStream` is the stream() push-closure context; `releaseScheduled`
is a pending nextTick call of executeQueueSends. -/
structure WebSocket where
  isServer : Bool
  readyState : Nat
  queue : Option (List QueuedAction) := none
  closeCode : Option Nat := none
  closeMessage : Option String := none
  socket : Bool := false
  upgraded : Bool := false
  upgradePending : Bool := false
  streaming : Option StreamCtx := none
  userStream : Option StreamCtx := none
  releaseScheduled : Bool := false
deriving DecidableEq, Repr

/-- Result of a synchronous run of one operation or handler: the new
session state, the observable effects in order, and a thrown error. -/
structure Out where
  s : WebSocket
  evs : List Ev
  exn : Option String := none
deriving DecidableEq, Repr

/-- JavaScript || default for a numeric field (0 is falsy), as in
`self._closeCode || 1000` at lines 415 and 420. -/
def jsOrNat (v : Option Nat) (d : Nat) : Nat :=
  match v with
  | none => d
  | some n => if n == 0 then d else n

/-- JavaScript || default for a string field (the empty string is
falsy), as in `self._closeMessage || ''`. -/
def jsOrStr (v : Option String) (d : String) : String :=
  match v with
  | none => d
  | some x => if x == "" then d else x

/-- Mask flag resolution: `options = options || {}` followed by
`if (typeof options.mask == 'undefined') options.mask = !this._isServer`
(lines 231, 246, 275-277, 313-314). -/
def maskOf (s : WebSocket) (options : Option JsOptions) : Bool :=
  ((options.getD {}).mask).getD (!s.isServer)

/-- Binary flag pass-through of the options object. -/
def binaryOf (options : Option JsOptions) : Option Bool :=
  (options.getD {}).binary

/-- The emit override installed by the constructor at lines 156-160:
delivering an error event first deletes the queue. -/
def WebSocket.emit (s : WebSocket) (e : Ev) : WebSocket × List Ev :=
  match e with
  | Ev.errorEv _ => ({ s with queue := none }, [e])
  | _ => (s, [e])

/-- startQueue, lines 463-465. -/
def startQueue (s : WebSocket) : WebSocket :=
  { s with queue := some (s.queue.getD []) }

/-- terminate, lines 339-347: end the socket when present, otherwise
collapse a Connecting session to Closed. -/
def WebSocket.terminate (s : WebSocket) : Out :=
  if s.socket then ⟨{ s with socket := false }, [Ev.socketEnd], none⟩
  else if s.readyState == CONNECTING then
    ⟨{ s with readyState := CLOSED }, [], none⟩
  else ⟨s, [], none⟩

/-- The Open branch of close, lines 207-214: go Closing, record code and
reason, emit one close control frame, then terminate. -/
def closeOpen (s : WebSocket) (code : Option Nat) (reason : Option String) : Out :=
  let s1 : WebSocket :=
    { s with readyState := CLOSING, closeCode := code, closeMessage := reason }
  let t := WebSocket.terminate s1
  ⟨t.s, Ev.frame (Frame.close code reason (!s.isServer)) :: t.evs, t.exn⟩

/-- close, lines 200-218. -/
def WebSocket.close (s : WebSocket) (code : Option Nat) (reason : Option String) : Out :=
  if s.readyState == CLOSING then ⟨s, [], none⟩
  else if s.readyState == CONNECTING then
    ⟨{ s with readyState := CLOSED }, [], none⟩
  else if s.readyState != OPEN then ⟨s, [], some "not opened"⟩
  else closeOpen s code reason

/-- ping, lines 228-233. -/
def WebSocket.ping (s : WebSocket) (data : JsData) (options : Option JsOptions) : Out :=
  if s.readyState != OPEN then ⟨s, [], some "not opened"⟩
  else ⟨s, [Ev.frame (Frame.ping data (maskOf s options) (binaryOf options))], none⟩

/-- pong, lines 243-248. -/
def WebSocket.pong (s : WebSocket) (data : JsData) (options : Option JsOptions) : Out :=
  if s.readyState != OPEN then ⟨s, [], some "not opened"⟩
  else ⟨s, [Ev.frame (Frame.pong data (maskOf s options) (binaryOf options))], none⟩

/-- The open-state part of send, lines 270-287, applied to the already
coerced data: defer to the queue when present, else start a streaming
send for a ReadStream, else emit one fin=true data frame. -/
def sendOpen (s : WebSocket) (data : JsData) (options : Option JsOptions)
    (hasCb : Bool) : Out :=
  match s.queue with
  | some q =>
      ⟨{ s with queue := some (q ++ [QueuedAction.qsend data options hasCb]) }, [], none⟩
  | none =>
      if isStream data then
        ⟨{ (startQueue s) with
            streaming := some ⟨maskOf s options, binaryOf options, hasCb⟩ }, [], none⟩
      else
        ⟨s, [Ev.frame (Frame.data data true (maskOf s options) (binaryOf options))],
          none⟩

/-- send, lines 259-287: reject outside Open (to the callback when one
was given), coerce falsy data to the empty string, then dispatch. -/
def WebSocket.send (s : WebSocket) (data : JsData) (options : Option JsOptions)
    (hasCb : Bool) : Out :=
  if s.readyState != OPEN then
    if hasCb then ⟨s, [Ev.cb (some "not opened")], none⟩
    else ⟨s, [], some "not opened"⟩
  else sendOpen s (if data.falsy then JsData.str "" else data) options hasCb

/-- stream, lines 297-331 (synchronous part): require a callback,
require Open, defer to the queue when present, else install the queue
and the push closure context. -/
def WebSocket.stream (s : WebSocket) (options : Option JsOptions) (hasCb : Bool) : Out :=
  if !hasCb then ⟨s, [], some "callback must be provided"⟩
  else if s.readyState != OPEN then ⟨s, [Ev.cb (some "not opened")], none⟩
  else
    match s.queue with
    | some q =>
        ⟨{ s with queue := some (q ++ [QueuedAction.qstream options hasCb]) }, [], none⟩
    | none =>
        ⟨{ (startQueue s) with
            userStream := some ⟨maskOf s options, binaryOf options, true⟩ }, [], none⟩

/-- Replay of one queued thunk inside executeQueueSends: the thunk
re-invokes send or stream with the captured arguments. -/
def runAction (s : WebSocket) : QueuedAction → Out
  | QueuedAction.qsend d o cb => WebSocket.send s d o cb
  | QueuedAction.qstream o cb => WebSocket.stream s o cb

/-- The replay loop of executeQueueSends, lines 471-473; a thrown error
aborts the remaining thunks (the loop body is not guarded). -/
def runActions (s : WebSocket) : List QueuedAction → Out
  | [] => ⟨s, [], none⟩
  | a :: rest =>
      let r := runAction s a
      match r.exn with
      | some _ => r
      | none =>
          let r2 := runActions r.s rest
          ⟨r2.s, r.evs ++ r2.evs, r2.exn⟩

/-- executeQueueSends, lines 467-474: no-op when the queue is absent,
else delete the queue first and replay every thunk in insertion order. -/
def executeQueueSends (s : WebSocket) : Out :=
  match s.queue with
  | none => ⟨s, [], none⟩
  | some q => runActions { s with queue := none } q

/-- The push closure handed out by stream, lines 317-329: outside Open
the caught throw goes to the callback; a non-final push emits a
fin=false fragment; the final push emits the fin=true frame and then
releases the queue synchronously. -/
def streamSend (s : WebSocket) (data : JsData) (final : Bool) : Out :=
  match s.userStream with
  | none => ⟨s, [], none⟩
  | some ctx =>
      if s.readyState != OPEN then ⟨s, [Ev.cb (some "not opened")], none⟩
      else if !final then
        ⟨s, [Ev.frame (Frame.data data false ctx.mask ctx.binary)], none⟩
      else
        let r := executeQueueSends { s with userStream := none }
        match r.exn with
        | some e =>
            ⟨r.s, Ev.frame (Frame.data data true ctx.mask ctx.binary) :: r.evs
                    ++ [Ev.cb (some e)], none⟩
        | none =>
            ⟨r.s, Ev.frame (Frame.data data true ctx.mask ctx.binary) :: r.evs, none⟩

/-- The completion callback send wraps around sendStream at lines
281-284: schedule executeQueueSends on the next tick, then invoke the
user callback when one was supplied. -/
def streamWrapperCb (s : WebSocket) (hasUserCb : Bool) (err : Option String) :
    WebSocket × List Ev :=
  ({ s with releaseScheduled := true }, if hasUserCb then [Ev.cb err] else [])

/-- sendStream data handler, lines 477-485: outside Open the wrapper
callback (always a function) gets the error; otherwise emit a fin=false
fragment. -/
def sendStreamOnData (s : WebSocket) (chunk : JsData) : Out :=
  match s.streaming with
  | none => ⟨s, [], none⟩
  | some ctx =>
      if s.readyState != OPEN then
        let r := streamWrapperCb s ctx.hasCb (some "not opened")
        ⟨r.1, r.2, none⟩
      else ⟨s, [Ev.frame (Frame.data chunk false ctx.mask ctx.binary)], none⟩

/-- sendStream end handler, lines 486-495: outside Open the wrapper
callback gets the error; otherwise emit the terminal fin=true frame with
null payload and complete through the wrapper. -/
def sendStreamOnEnd (s : WebSocket) : Out :=
  match s.streaming with
  | none => ⟨s, [], none⟩
  | some ctx =>
      if s.readyState != OPEN then
        let r := streamWrapperCb { s with streaming := none } ctx.hasCb (some "not opened")
        ⟨r.1, r.2, none⟩
      else
        let r := streamWrapperCb { s with streaming := none } ctx.hasCb none
        ⟨r.1, Ev.frame (Frame.data JsData.null true ctx.mask ctx.binary) :: r.2, none⟩

/-- upgrade, lines 407-461: install the socket, the receiver and the
sender, transition to Open and emit the open event. -/
def upgrade (s : WebSocket) : WebSocket × List Ev :=
  WebSocket.emit { s with socket := true, upgraded := true, readyState := OPEN } Ev.openEv

/-- The client response upgrade handler, lines 135-150: when the session
already closed, emit a bare close event and end the socket; when the
Sec-WebSocket-Accept header is absent or differs from the expected key,
emit the invalid server key error and end the socket; otherwise run the
upgrade routine. -/
def clientOnUpgrade (s0 : WebSocket) (serverKey : Option String) (expected : String) :
    WebSocket × List Ev :=
  let s : WebSocket := { s0 with upgradePending := false }
  if s.readyState == CLOSED then
    let r := WebSocket.emit s (Ev.closeEv none none)
    (r.1, r.2 ++ [Ev.socketEnd])
  else
    match serverKey with
    | none =>
        let r := WebSocket.emit s (Ev.errorEv "invalid server key")
        (r.1, r.2 ++ [Ev.socketEnd])
    | some k =>
        if k != expected then
          let r := WebSocket.emit s (Ev.errorEv "invalid server key")
          (r.1, r.2 ++ [Ev.socketEnd])
        else upgrade s

/-- The server-role deferred upgrade of lines 59-62: upgrade runs on the
next tick with no ready-state guard. -/
def serverTickUpgrade (s : WebSocket) : WebSocket × List Ev :=
  upgrade { s with upgradePending := false }

/-- The socket end and close handlers, lines 412-421: once, transition
to Closed and emit the close event with the recorded or default code
and reason. -/
def onSocketClosed (s : WebSocket) : WebSocket × List Ev :=
  if s.readyState == CLOSED then (s, [])
  else
    WebSocket.emit { s with readyState := CLOSED }
      (Ev.closeEv (some (jsOrNat s.closeCode 1000)) (some (jsOrStr s.closeMessage "")))

/-- Receiver text handler, lines 427-430. -/
def onReceiverText (s : WebSocket) (data : JsData) : WebSocket × List Ev :=
  WebSocket.emit s (Ev.messageEv data false)

/-- Receiver binary handler, lines 431-435. -/
def onReceiverBinary (s : WebSocket) (data : JsData) : WebSocket × List Ev :=
  WebSocket.emit s (Ev.messageEv data true)

/-- Receiver ping handler, lines 436-440: reply with a pong carrying the
same payload and binary flag, then surface the ping event; a throw from
pong (outside Open) propagates and the ping is not surfaced. -/
def onReceiverPing (s : WebSocket) (data : JsData) (binaryFlag : Bool) : Out :=
  let r := WebSocket.pong s data
      (some { mask := some (!s.isServer), binary := some binaryFlag })
  match r.exn with
  | some _ => r
  | none =>
      let r2 := WebSocket.emit r.s (Ev.pingEv data)
      ⟨r2.1, r.evs ++ r2.2, none⟩

/-- Receiver close handler, lines 441-444: invoke close with the peer
code and reason (the extra flags argument is dropped by close). -/
def onReceiverClose (s : WebSocket) (code : Option Nat) (reason : Option String) : Out :=
  WebSocket.close s code reason

/-- Receiver error handler, lines 445-451: when a HyBi close code is
present first close the connection with it, then surface the error. -/
def onReceiverError (s : WebSocket) (reason : String) (errorCode : Option Nat) : Out :=
  let r : Out :=
    match errorCode with
    | some c => WebSocket.close s (some c) (some "")
    | none => ⟨s, [], none⟩
  match r.exn with
  | some _ => r
  | none =>
      let r2 := WebSocket.emit r.s (Ev.errorEv reason)
      ⟨r2.1, r.evs ++ r2.2, none⟩

/-- The HyBi GUID constant, line 93. -/
def hybiGUID : String := "258EAFA5-E914-47DA-95CA-C5AB0DC85B11"

/-- The session key composed at line 91: base64 of the byte sequence
version-millis.  The base64 codec is a host collaborator and is passed
in abstractly. -/
def sessionKey (base64 : String → String) (protocolVersion : Nat) (nowMillis : Nat) :
    String :=
  base64 (toString protocolVersion ++ "-" ++ toString nowMillis)

/-- The expected Sec-WebSocket-Accept value computed at lines 92-94:
base64 of the sha1 of the key concatenated with the HyBi GUID.  The
hash and codec are host collaborators and are passed in abstractly. -/
def expectedServerKey (base64 : String → String) (sha1 : String → String)
    (key : String) : String :=
  base64 (sha1 (key ++ hybiGUID))

/-- The initial session state of the constructor: Connecting, no socket,
with the upgrade scheduled (client: the response handler at line 135;
server: the nextTick at line 60). -/
def initWS (roleServer : Bool) : WebSocket :=
  { isServer := roleServer, readyState := CONNECTING, queue := none,
    closeCode := none, closeMessage := none, socket := false, upgraded := false,
    upgradePending := true, streaming := none, userStream := none,
    releaseScheduled := false }

/-- One interleaving step: a public operation invoked by the
application, or a transport, decoder, scheduler or stream-source event
delivered to the installed handlers. -/
inductive Step where
  | opClose (code : Option Nat) (reason : Option String)
  | opSend (data : JsData) (options : Option JsOptions) (hasCb : Bool)
  | opPing (data : JsData) (options : Option JsOptions)
  | opPong (data : JsData) (options : Option JsOptions)
  | opStream (options : Option JsOptions) (hasCb : Bool)
  | opTerminate
  | evClientUpgrade (serverKey : Option String) (expected : String)
  | evServerTickUpgrade
  | evSocketClosed
  | evHttpError (reason : String)
  | evSenderError (reason : String)
  | evReceiverText (data : JsData)
  | evReceiverBinary (data : JsData)
  | evReceiverPing (data : JsData) (binaryFlag : Bool)
  | evReceiverClose (code : Option Nat) (reason : Option String)
  | evReceiverError (reason : String) (code : Option Nat)
  | evStreamData (chunk : JsData)
  | evStreamEnd
  | evStreamPush (data : JsData) (final : Bool)
  | evQueueRelease
deriving DecidableEq, Repr

/-- The state transformer of one step.  Handler events are guarded by
the availability of the handler: receiver, sender and socket handlers
exist once upgrade ran; an upgrade fires while scheduled; a queue
release tick fires while scheduled. -/
def stepFn (s : WebSocket) (st : Step) : WebSocket :=
  match st with
  | Step.opClose c r => (WebSocket.close s c r).s
  | Step.opSend d o cb => (WebSocket.send s d o cb).s
  | Step.opPing d o => (WebSocket.ping s d o).s
  | Step.opPong d o => (WebSocket.pong s d o).s
  | Step.opStream o cb => (WebSocket.stream s o cb).s
  | Step.opTerminate => (WebSocket.terminate s).s
  | Step.evClientUpgrade k e =>
      if !s.isServer && s.upgradePending then (clientOnUpgrade s k e).1 else s
  | Step.evServerTickUpgrade =>
      if s.isServer && s.upgradePending then (serverTickUpgrade s).1 else s
  | Step.evSocketClosed => if s.upgraded then (onSocketClosed s).1 else s
  | Step.evHttpError r => if !s.isServer then (WebSocket.emit s (Ev.errorEv r)).1 else s
  | Step.evSenderError r => if s.upgraded then (WebSocket.emit s (Ev.errorEv r)).1 else s
  | Step.evReceiverText d => if s.upgraded then (onReceiverText s d).1 else s
  | Step.evReceiverBinary d => if s.upgraded then (onReceiverBinary s d).1 else s
  | Step.evReceiverPing d b => if s.upgraded then (onReceiverPing s d b).s else s
  | Step.evReceiverClose c r => if s.upgraded then (onReceiverClose s c r).s else s
  | Step.evReceiverError r c => if s.upgraded then (onReceiverError s r c).s else s
  | Step.evStreamData c => (sendStreamOnData s c).s
  | Step.evStreamEnd => (sendStreamOnEnd s).s
  | Step.evStreamPush d f => (streamSend s d f).s
  | Step.evQueueRelease =>
      if s.releaseScheduled then (executeQueueSends { s with releaseScheduled := false }).s
      else s

/-- Run a list of steps from a state. -/
def runSteps (s : WebSocket) : List Step → WebSocket
  | [] => s
  | st :: rest => runSteps (stepFn s st) rest

/-- The ready states observed along a run, initial state included. -/
def readyTrace (s : WebSocket) : List Step → List Nat
  | [] => [s.readyState]
  | st :: rest => s.readyState :: readyTrace (stepFn s st) rest

/-- The ready-state transition relation the code actually implements:
the claimed chain, plus the direct Open to Closed drop on a transport
end, plus the server-role reopening when the deferred upgrade runs
after an early close. -/
def allowedTransition (a b : Nat) : Bool :=
  a == b
  || (a == CONNECTING && b == OPEN)
  || (a == CONNECTING && b == CLOSED)
  || (a == OPEN && b == CLOSING)
  || (a == OPEN && b == CLOSED)
  || (a == CLOSING && b == CLOSED)
  || (a == CLOSED && b == OPEN)

/-- Every consecutive pair of a trace is an allowed transition. -/
def pathOk : List Nat → Bool
  | a :: b :: rest => allowedTransition a b && pathOk (b :: rest)
  | _ => true

/-- Modelled from the spec: the transition set asserted by claim C2
(spec I2 and P1) - only the chain Connecting, Open, Closing, Closed and
the shortcut Connecting to Closed. -/
def claimAllowed (a b : Nat) : Bool :=
  a == b
  || (a == CONNECTING && b == OPEN)
  || (a == CONNECTING && b == CLOSED)
  || (a == OPEN && b == CLOSING)
  || (a == CLOSING && b == CLOSED)

/-- Every consecutive pair of a trace is allowed by the claim. -/
def claimPathOk : List Nat → Bool
  | a :: b :: rest => claimAllowed a b && claimPathOk (b :: rest)
  | _ => true

/-- Reachability invariant of the session
state: a scheduled upgrade or a
not-yet-upgraded session is still Connecting or already Closed, a
not-yet-upgraded session has no socket, and the ready state is one of
the four constants. -/
def SessInv (s : WebSocket) : Prop :=
  (s.upgradePending = true → (s.readyState = CONNECTING ∨ s.readyState = CLOSED)) ∧
  (s.upgraded = false → (s.readyState = CONNECTING ∨ s.readyState = CLOSED)) ∧
  (s.upgraded = false → s.socket = false) ∧
  (s.readyState = CONNECTING ∨ s.readyState = OPEN ∨ s.readyState = CLOSING ∨
    s.readyState = CLOSED)

instance (s : WebSocket) : Decidable (SessInv s) := by
  unfold SessInv; infer_instance

/-- Equality of the control fields the invariant and the ready-state
path depend on. -/
def CtrlEq (a b : WebSocket) : Prop :=
  b.readyState = a.readyState ∧ b.upgraded = a.upgraded ∧ b.socket = a.socket ∧
    b.upgradePending = a.upgradePending

/-- The event list produced by the replay of one plain queued send. -/
def replayFrame (serverRole : Bool) : QueuedAction → List Ev
  | QueuedAction.qsend d o _ =>
      [Ev.frame (Frame.data (if d.falsy then JsData.str "" else d) true
        (((o.getD {}).mask).getD (!serverRole)) (o.getD {}).binary)]
  | QueuedAction.qstream _ _ => []

/-- The event list produced by replaying a queue of plain sends in
insertion order. -/
def replayEvents (serverRole : Bool) : List QueuedAction → List Ev
  | [] => []
  | a :: rest => replayFrame serverRole a ++ replayEvents serverRole rest

/-- A queued action whose replay emits exactly one data frame: a send of
non-stream data. -/
def plainAction : QueuedAction → Bool
  | QueuedAction.qsend d _ _ => !(isStream d)
  | QueuedAction.qstream _ _ => false

/-- A client session brought to Open by a successful handshake. -/
def openClient : WebSocket :=
  runSteps (initWS false) [Step.evClientUpgrade (some "k") "k"]

/-- An open client after a stream call: the queue gate is installed. -/
def qClient : WebSocket :=
  runSteps (initWS false)
    [Step.evClientUpgrade (some "k") "k", Step.opStream none true]

/-- An open client moved to Closing by a close call. -/
def closingClient : WebSocket :=
  runSteps (initWS false)
    [Step.evClientUpgrade (some "k") "k", Step.opClose (some 1000) (some "bye")]

/-- A client mid streaming send (ReadStream source) with one deferred
send queued, then moved off Open by a close call. -/
def c5runState : WebSocket :=
  runSteps (initWS false)
    [Step.evClientUpgrade (some "k") "k",
     Step.opSend (JsData.readStream ["a", "b"]) none true,
     Step.opSend (JsData.str "X") none true,
     Step.opClose (some 1000) none]

/-! Helper lemmas. -/

/-- The falsy coercion of line 269 never produces a ReadStream and never
turns one into something else. -/
theorem isStream_coerce (d : JsData) :
    isStream (if d.falsy then JsData.str "" else d) = isStream d := by
  cases hf : d.falsy with
  | false => simp [hf]
  | true => cases d <;> simp_all [JsData.falsy, isStream]

/-- A send in the Open state with no queue and non-stream data emits
exactly the one replay frame and leaves the state unchanged. -/
theorem send_open_plain (s : WebSocket) (d : JsData) (o : Option JsOptions) (cb : Bool)
    (hopen : s.readyState = OPEN) (hq : s.queue = none) (hd : isStream d = false) :
    WebSocket.send s d o cb =
      ⟨s, replayFrame s.isServer (QueuedAction.qsend d o cb), none⟩ := by
  simp [WebSocket.send, sendOpen, hopen, hq, isStream_coerce, hd, replayFrame,
    maskOf, binaryOf, OPEN]

/-- Replaying a queue of plain sends from an Open state with the queue
already deleted emits the replay frames in insertion order and leaves
the state unchanged. -/
theorem runActions_plain (q : List QueuedAction) :
    ∀ (s : WebSocket), s.readyState = OPEN → s.queue = none →
      (∀ a ∈ q, plainAction a = true) →
      runActions s q = ⟨s, replayEvents s.isServer q, none⟩ := by
  induction q with
  | nil => intro s h1 h2 _; simp [runActions, replayEvents]
  | cons a rest ih =>
      intro s h1 h2 h3
      have ha := h3 a (List.mem_cons_self a rest)
      cases a with
      | qsend d o cb =>
          have hd : isStream d = false := by
            simpa [plainAction] using ha
          have hrest := ih s h1 h2 (fun x hx => h3 x (List.mem_cons_of_mem _ hx))
          simp [runActions, runAction, send_open_plain s d o cb h1 h2 hd, hrest,
            replayEvents]
      | qstream o cb => simp [plainAction] at ha

/-- A send outside the Open state with a callback fails to the callback
and changes nothing. -/
theorem send_notOpen_cb (s : WebSocket) (d : JsData) (o : Option JsOptions)
    (hno : s.readyState ≠ OPEN) :
    WebSocket.send s d o true = ⟨s, [Ev.cb (some "not opened")], none⟩ := by
  simp [WebSocket.send, bne_iff_ne, hno]

/-- Replaying a queue of callback-bearing sends from a non-Open state
delivers one callback error per action and changes nothing. -/
theorem runActions_notOpen (q : List QueuedAction) :
    ∀ (s : WebSocket), s.readyState ≠ OPEN →
      (∀ a ∈ q, ∃ d o, a = QueuedAction.qsend d o true) →
      runActions s q = ⟨s, q.map (fun _ => Ev.cb (some "not opened")), none⟩ := by
  induction q with
  | nil => intro s _ _; simp [runActions]
  | cons a rest ih =>
      intro s h1 h3
      obtain ⟨d, o, rfl⟩ := h3 a (List.mem_cons_self a rest)
      have hrest := ih s h1 (fun x hx => h3 x (List.mem_cons_of_mem _ hx))
      simp [runActions, runAction, send_notOpen_cb s d o h1, hrest]

/-! Claim theorems. -/

/-- C4: close behaves per state: no-op in Closing; straight to Closed
with no frame in Connecting; NotOpened in Closed; in Open it goes to
Closing, records the code and reason, emits one close control frame and
terminates the transport. -/
theorem close_protocol (s : WebSocket) (code : Option Nat) (reason : Option String) :
    (s.readyState = CLOSING → WebSocket.close s code reason = ⟨s, [], none⟩) ∧
    (s.readyState = CONNECTING →
      WebSocket.close s code reason = ⟨{ s with readyState := CLOSED }, [], none⟩) ∧
    (s.readyState = CLOSED →
      WebSocket.close s code reason = ⟨s, [], some "not opened"⟩) ∧
    (s.readyState = OPEN → s.socket = true →
      WebSocket.close s code reason =
        ⟨{ s with
            readyState := CLOSING, closeCode := code, closeMessage := reason,
            socket := false },
          [Ev.frame (Frame.close code reason (!s.isServer)), Ev.socketEnd], none⟩) := by
  refine ⟨fun h => ?_, fun h => ?_, fun h => ?_, fun h h2 => ?_⟩
  · simp [WebSocket.close, h, CLOSING, CONNECTING, OPEN, CLOSED]
  · simp [WebSocket.close, h, CLOSING, CONNECTING, OPEN, CLOSED]
  · simp [WebSocket.close, h, CLOSING, CONNECTING, OPEN, CLOSED]
  · simp [WebSocket.close, closeOpen, WebSocket.terminate, h, h2, CLOSING,
      CONNECTING, OPEN, CLOSED]

/-- C4 witness: closing an open client session records the code and
moves to Closing. -/
theorem close_protocol_witness :
    WebSocket.close openClient (some 1001) (some "bye") =
      ⟨{ openClient with
          readyState := CLOSING, closeCode := some 1001,
          closeMessage := some "bye", socket := false },
        [Ev.frame (Frame.close (some 1001) (some "bye") (!openClient.isServer)),
          Ev.socketEnd], none⟩ := by
  exact (close_protocol openClient (some 1001) (some "bye")).2.2.2 (by decide) (by decide)

/-- C7: delivering an error event discards the queue: after the emit the
queue is absent, and a subsequent executeQueueSends runs no deferred
action; the receiver error handler path behaves the same. -/
theorem error_discards_queue (s : WebSocket) (reason : String) :
    (WebSocket.emit s (Ev.errorEv reason)).1.queue = none ∧
    (WebSocket.emit s (Ev.errorEv reason)).2 = [Ev.errorEv reason] ∧
    executeQueueSends (WebSocket.emit s (Ev.errorEv reason)).1 =
      ⟨(WebSocket.emit s (Ev.errorEv reason)).1, [], none⟩ ∧
    (onReceiverError s reason none).s.queue = none := by
  exact ⟨rfl, rfl, rfl, rfl⟩

/-- C10: a send in state Open with falsy data does not fail: the data is
coerced to the empty string and one fin=true data frame with empty
payload goes to the Encoder. -/
theorem send_falsy_empty_frame (s : WebSocket) (options : Option JsOptions) (hasCb : Bool)
    (d : JsData) (hopen : s.readyState = OPEN) (hq : s.queue = none)
    (hd : d = JsData.undef ∨ d = JsData.null ∨ d = JsData.str "" ∨ d = JsData.num 0 ∨
      d = JsData.bool false) :
    WebSocket.send s d options hasCb =
      ⟨s, [Ev.frame (Frame.data (JsData.str "") true (maskOf s options)
        (binaryOf options))], none⟩ := by
  rcases hd with h | h | h | h | h <;> subst h <;>
    simp [WebSocket.send, sendOpen, hopen, hq, JsData.falsy, isStream, OPEN]

/-- C10 witness: sending null on an open client emits one empty
fin=true frame. -/
theorem send_falsy_empty_frame_witness :
    WebSocket.send openClient JsData.null none false =
      ⟨openClient, [Ev.frame (Frame.data (JsData.str "") true (maskOf openClient none)
        (binaryOf none))], none⟩ := by
  exact send_falsy_empty_frame openClient none false JsData.null (by decide) (by decide)
    (Or.inr (Or.inl rfl))

/-- C8 amended: for a Decoder ping in state Open the session emits a
pong with the identical payload and binary flag before surfacing the
ping event; outside Open the pong call throws NotOpened, no pong frame
is emitted and the ping is not surfaced. -/
theorem autoPong_amended (s : WebSocket) (d : JsData) (b : Bool) :
    (s.readyState = OPEN →
      onReceiverPing s d b =
        ⟨s, [Ev.frame (Frame.pong d (!s.isServer) (some b)), Ev.pingEv d], none⟩) ∧
    (s.readyState ≠ OPEN →
      onReceiverPing s d b = ⟨s, [], some "not opened"⟩) := by
  constructor
  · intro h
    simp [onReceiverPing, WebSocket.pong, WebSocket.emit, h, maskOf, binaryOf, OPEN]
  · intro h
    simp [onReceiverPing, WebSocket.pong, bne_iff_ne, h]

/-- C8 witness: on an open client a Decoder ping produces the pong frame
first, then the ping event. -/
theorem autoPong_amended_witness :
    onReceiverPing openClient (JsData.str "hi") false =
      ⟨openClient, [Ev.frame (Frame.pong (JsData.str "hi") (!openClient.isServer)
        (some false)), Ev.pingEv (JsData.str "hi")], none⟩ := by
  exact (autoPong_amended openClient (JsData.str "hi") false).1 (by decide)

/-- C8 counterexample: a Decoder ping arriving in the Closing state (a
close call happened, data already buffered keeps arriving) throws and
emits no pong at all, against the claim that every Decoder ping gets a
pong reply. -/
theorem autoPong_cex :
    closingClient.readyState = CLOSING ∧
    onReceiverPing closingClient (JsData.str "x") false =
      ⟨closingClient, [], some "not opened"⟩ := by
  decide

/-- C3 amended: when no mask option is passed, every frame emitted by
send, ping and pong, and the stream context, carries mask equal to the
negation of the server role; but an explicit options.mask on a call
overrides the rule (the correction). -/
theorem mask_default_amended (s : WebSocket) (d : JsData) (o : JsOptions) (b : Bool)
    (hopen : s.readyState = OPEN) (hq : s.queue = none) (hmask : o.mask = none)
    (hd : isStream d = false) :
    ((WebSocket.send s d (some o) false).evs =
      [Ev.frame (Frame.data (if d.falsy then JsData.str "" else d) true (!s.isServer)
        o.binary)]) ∧
    ((WebSocket.ping s d (some o)).evs =
      [Ev.frame (Frame.ping d (!s.isServer) o.binary)]) ∧
    ((WebSocket.pong s d (some o)).evs =
      [Ev.frame (Frame.pong d (!s.isServer) o.binary)]) ∧
    ((WebSocket.stream s (some o) true).s.userStream =
      some ⟨!s.isServer, o.binary, true⟩) ∧
    ((WebSocket.ping s d (some { o with mask := some b })).evs =
      [Ev.frame (Frame.ping d b o.binary)]) := by
  refine ⟨?_, ?_, ?_, ?_, ?_⟩
  · simp [WebSocket.send, sendOpen, hopen, hq, isStream_coerce, hd, maskOf, binaryOf,
      hmask, OPEN]
  · simp [WebSocket.ping, hopen, maskOf, binaryOf, hmask, OPEN]
  · simp [WebSocket.pong, hopen, maskOf, binaryOf, hmask, OPEN]
  · simp [WebSocket.stream, startQueue, hopen, hq, maskOf, binaryOf, hmask, OPEN]
  · simp [WebSocket.ping, hopen, maskOf, binaryOf, OPEN]

/-- C3 witness: on an open client with no mask option, ping frames carry
mask true; with an explicit mask false they carry false. -/
theorem mask_default_amended_witness :
    (WebSocket.ping openClient (JsData.str "p") (some {})).evs =
      [Ev.frame (Frame.ping (JsData.str "p") (!openClient.isServer)
        (JsOptions.binary {}))] := by
  exact (mask_default_amended openClient (JsData.str "p") {} false (by decide)
    (by decide) (by decide) (by decide)).2.1

/-- C3 counterexample: on a Client session an explicit mask false in the
options of ping is honored, so a per-call override of the masking rule
is possible, against the claim. -/
theorem mask_override_cex :
    openClient.isServer = false ∧
    WebSocket.ping openClient (JsData.str "p")
        (some { mask := some false, binary := none, fin := none }) =
      ⟨openClient, [Ev.frame (Frame.ping (JsData.str "p") false none)], none⟩ := by
  decide

/-- C6: the session key is base64 of version-millis, the expected accept
value is base64 of the sha1 of the key concatenated with the HyBi GUID,
and an upgrade response whose Sec-WebSocket-Accept is absent or differs
from it makes the handshake emit the invalid server key error, end the
transport, fire no open event and leave the ready state unchanged. -/
theorem handshake_key_check (base64 sha1 : String → String) (v m : Nat)
    (s : WebSocket) (serverKey : Option String)
    (hne : serverKey ≠ some (expectedServerKey base64 sha1 (sessionKey base64 v m)))
    (hcl : s.readyState ≠ CLOSED) :
    sessionKey base64 v m = base64 (toString v ++ "-" ++ toString m) ∧
    expectedServerKey base64 sha1 (sessionKey base64 v m) =
      base64 (sha1 (sessionKey base64 v m ++ hybiGUID)) ∧
    clientOnUpgrade s serverKey (expectedServerKey base64 sha1 (sessionKey base64 v m)) =
      ({ s with upgradePending := false, queue := none },
        [Ev.errorEv "invalid server key", Ev.socketEnd]) ∧
    Ev.openEv ∉ (clientOnUpgrade s serverKey
      (expectedServerKey base64 sha1 (sessionKey base64 v m))).2 ∧
    (clientOnUpgrade s serverKey
      (expectedServerKey base64 sha1 (sessionKey base64 v m))).1.readyState =
      s.readyState := by
  have heq : clientOnUpgrade s serverKey
      (expectedServerKey base64 sha1 (sessionKey base64 v m)) =
      ({ s with upgradePending := false, queue := none },
        [Ev.errorEv "invalid server key", Ev.socketEnd]) := by
    rcases serverKey with _ | k
    · simp [clientOnUpgrade, WebSocket.emit, hcl]
    · have hk : k ≠ expectedServerKey base64 sha1 (sessionKey base64 v m) :=
        fun h => hne (by rw [h])
      simp [clientOnUpgrade, WebSocket.emit, hcl, hk]
  refine ⟨rfl, rfl, heq, ?_, ?_⟩
  · rw [heq]; simp
  · rw [heq]

/-- C6 witness: a concrete mismatching accept header fails the
handshake with the invalid server key error. -/
theorem handshake_key_check_witness :
    clientOnUpgrade (initWS false) (some "x")
      (expectedServerKey (fun x => x) (fun x => x) (sessionKey (fun x => x) 13 5)) =
      ({ initWS false with upgradePending := false, queue := none },
        [Ev.errorEv "invalid server key", Ev.socketEnd]) := by
  exact (handshake_key_check (fun x => x) (fun x => x) 13 5 (initWS false) (some "x")
    (by decide) (by decide)).2.2.1

/-- C1 amended: while the queue is present, send and stream append
themselves to the queue and emit nothing; ping and pong bypass the
queue and emit their control frame immediately; when the queue is
released every queued plain send replays in insertion order exactly
once. -/
theorem queueGate_amended (s : WebSocket) (q : List QueuedAction) (d : JsData)
    (o : Option JsOptions) (cb : Bool) (hopen : s.readyState = OPEN)
    (hq : s.queue = some q) :
    ((WebSocket.send s d o cb).s.queue =
        some (q ++ [QueuedAction.qsend (if d.falsy then JsData.str "" else d) o cb]) ∧
      (WebSocket.send s d o cb).evs = []) ∧
    ((WebSocket.stream s o true).s.queue = some (q ++ [QueuedAction.qstream o true]) ∧
      (WebSocket.stream s o true).evs = []) ∧
    ((WebSocket.ping s d o).evs = [Ev.frame (Frame.ping d (maskOf s o) (binaryOf o))] ∧
      (WebSocket.ping s d o).s.queue = some q) ∧
    ((WebSocket.pong s d o).evs = [Ev.frame (Frame.pong d (maskOf s o) (binaryOf o))] ∧
      (WebSocket.pong s d o).s.queue = some q) ∧
    ((∀ a ∈ q, plainAction a = true) →
      executeQueueSends s =
        ⟨{ s with queue := none }, replayEvents s.isServer q, none⟩) := by
  refine ⟨⟨?_, ?_⟩, ⟨?_, ?_⟩, ⟨?_, ?_⟩, ⟨?_, ?_⟩, ?_⟩
  · simp [WebSocket.send, sendOpen, hopen, hq, OPEN]
  · simp [WebSocket.send, sendOpen, hopen, hq, OPEN]
  · simp [WebSocket.stream, hopen, hq, OPEN]
  · simp [WebSocket.stream, hopen, hq, OPEN]
  · simp [WebSocket.ping, hopen, OPEN]
  · simp [WebSocket.ping, hopen, hq, OPEN]
  · simp [WebSocket.pong, hopen, OPEN]
  · simp [WebSocket.pong, hopen, hq, OPEN]
  · intro hplain
    have h := runActions_plain q { s with queue := none } (by simpa using hopen)
      (by simp) hplain
    simp [executeQueueSends, hq]
    simpa using h

/-- C1 witness: on an open client with the queue gate installed, a send
appends itself to the queue. -/
theorem queueGate_amended_witness :
    (WebSocket.send qClient (JsData.str "A") none false).s.queue =
      some [QueuedAction.qsend (JsData.str "A") none false] := by
  have h := (queueGate_amended qClient [] (JsData.str "A") none false (by decide)
    (by decide)).1.1
  simpa [JsData.falsy] using h

/-- C1 counterexample: with the queue gate installed (a stream call is
in flight) a ping does not append itself to the queue: its control
frame goes to the Encoder immediately, before any terminal fin=true
frame of the in-flight stream. -/
theorem queueGate_cex :
    qClient.queue = some [] ∧
    WebSocket.ping qClient (JsData.str "p") none =
      ⟨qClient, [Ev.frame (Frame.ping (JsData.str "p") true none)], none⟩ := by
  decide

/-- C5 amended: during a streaming send, when the state is no longer
Open at a chunk boundary or at end of source, the wrapper callback gets
NotOpened (delivered to the user callback when one was supplied), no
error is raised to the session error channel, and the queue release is
scheduled: on the next tick the queue is deleted and each deferred
callback-bearing send replays and fails with NotOpened. -/
theorem streamNotOpen_amended (s : WebSocket) (ctx : StreamCtx) (chunk : JsData)
    (q : List QueuedAction) (hstr : s.streaming = some ctx)
    (hno : s.readyState ≠ OPEN) :
    (sendStreamOnData s chunk =
      ⟨{ s with releaseScheduled := true },
        if ctx.hasCb then [Ev.cb (some "not opened")] else [], none⟩) ∧
    (sendStreamOnEnd s =
      ⟨{ s with streaming := none, releaseScheduled := true },
        if ctx.hasCb then [Ev.cb (some "not opened")] else [], none⟩) ∧
    (s.queue = some q → (∀ a ∈ q, ∃ d o, a = QueuedAction.qsend d o true) →
      executeQueueSends s =
        ⟨{ s with queue := none }, q.map (fun _ => Ev.cb (some "not opened")), none⟩) := by
  refine ⟨?_, ?_, fun hq hall => ?_⟩
  · simp [sendStreamOnData, hstr, streamWrapperCb, bne_iff_ne, hno]
  · simp [sendStreamOnEnd, hstr, streamWrapperCb, bne_iff_ne, hno]
  · have h := runActions_notOpen q { s with queue := none } (by simpa using hno) hall
    simp [executeQueueSends, hq]
    simpa using h

/-- C5 witness: at a chunk boundary in the Closing state the stream
wrapper fails the callback and schedules the queue release. -/
theorem streamNotOpen_amended_witness :
    sendStreamOnData c5runState (JsData.str "a") =
      ⟨{ c5runState with releaseScheduled := true }, [Ev.cb (some "not opened")],
        none⟩ := by
  have h := (streamNotOpen_amended c5runState ⟨true, none, true⟩ (JsData.str "a")
    [] (by decide) (by decide)).1
  simpa using h

/-- C5 counterexample: after the chunk-boundary failure the scheduled
release does run: the queue is deleted and the deferred send action
fires (failing to its callback), against the claim that the queue is
not released. -/
theorem streamRelease_cex :
    c5runState.queue = some [QueuedAction.qsend (JsData.str "X") none true] ∧
    (sendStreamOnData c5runState (JsData.str "a")).s.releaseScheduled = true ∧
    (executeQueueSends (sendStreamOnData c5runState (JsData.str "a")).s).s.queue =
      none ∧
    (executeQueueSends (sendStreamOnData c5runState (JsData.str "a")).s).evs =
      [Ev.cb (some "not opened")] := by
  decide

/-- C2 counterexample: a transport close while Open moves the session
straight from Open to Closed, a transition outside the claimed set. -/
theorem readyState_path_cex :
    readyTrace (initWS false)
      [Step.evClientUpgrade (some "k") "k", Step.evSocketClosed] =
      [CONNECTING, OPEN, CLOSED] ∧
    claimPathOk (readyTrace (initWS false)
      [Step.evClientUpgrade (some "k") "k", Step.evSocketClosed]) = false := by
  decide

/-! The ready-state path machinery for C2 and C9. -/

/-- Staying put is an allowed transition. -/
theorem allowedTransition_refl (a : Nat) : allowedTransition a a = true := by
  simp [allowedTransition]

/-- CtrlEq is reflexive. -/
theorem ctrlEq_refl (s : WebSocket) : CtrlEq s s := ⟨rfl, rfl, rfl, rfl⟩

/-- CtrlEq is transitive. -/
theorem ctrlEq_trans {a b c : WebSocket} (h1 : CtrlEq a b) (h2 : CtrlEq b c) :
    CtrlEq a c := by
  obtain ⟨x1, x2, x3, x4⟩ := h1
  obtain ⟨y1, y2, y3, y4⟩ := h2
  exact ⟨y1.trans x1, y2.trans x2, y3.trans x3, y4.trans x4⟩

/-- A step that preserves the control fields is an allowed transition
and preserves the invariant. -/
theorem step_of_ctrlEq {s t : WebSocket} (h : SessInv s) (hc : CtrlEq s t) :
    allowedTransition s.readyState t.readyState = true ∧ SessInv t := by
  obtain ⟨e1, e2, e3, e4⟩ := hc
  constructor
  · rw [e1]; exact allowedTransition_refl _
  · unfold SessInv at h ⊢
    rw [e1, e2, e3, e4]
    exact h

/-- ping never changes the state. -/
theorem ping_state (s : WebSocket) (d : JsData) (o : Option JsOptions) :
    (WebSocket.ping s d o).s = s := by
  unfold WebSocket.ping; split <;> rfl

/-- pong never changes the state. -/
theorem pong_state (s : WebSocket) (d : JsData) (o : Option JsOptions) :
    (WebSocket.pong s d o).s = s := by
  unfold WebSocket.pong; split <;> rfl

/-- send only touches the queue and streaming fields. -/
theorem send_ctrl (s : WebSocket) (d : JsData) (o : Option JsOptions) (cb : Bool) :
    CtrlEq s (WebSocket.send s d o cb).s := by
  unfold WebSocket.send sendOpen startQueue
  by_cases h1 : (s.readyState != OPEN) = true
  · simp only [if_pos h1]
    by_cases h2 : cb = true
    · simp only [if_pos h2]; exact ctrlEq_refl s
    · simp only [if_neg h2]; exact ctrlEq_refl s
  · simp only [if_neg h1]
    cases hq : s.queue with
    | some q => exact ⟨rfl, rfl, rfl, rfl⟩
    | none =>
        by_cases h3 : isStream (if d.falsy then JsData.str "" else d) = true
        · simp only [if_pos h3]; exact ⟨rfl, rfl, rfl, rfl⟩
        · simp only [if_neg h3]; exact ctrlEq_refl s

/-- stream only touches the queue and push-closure fields. -/
theorem stream_ctrl (s : WebSocket) (o : Option JsOptions) (cb : Bool) :
    CtrlEq s (WebSocket.stream s o cb).s := by
  unfold WebSocket.stream startQueue
  by_cases h0 : (!cb) = true
  · simp only [if_pos h0]; exact ctrlEq_refl s
  · simp only [if_neg h0]
    by_cases h1 : (s.readyState != OPEN) = true
    · simp only [if_pos h1]; exact ctrlEq_refl s
    · simp only [if_neg h1]
      cases hq : s.queue with
      | some q => exact ⟨rfl, rfl, rfl, rfl⟩
      | none => exact ⟨rfl, rfl, rfl, rfl⟩

/-- Replaying one queued thunk preserves the control fields. -/
theorem runAction_ctrl (s : WebSocket) (a : QueuedAction) :
    CtrlEq s (runAction s a).s := by
  cases a with
  | qsend d o cb => exact send_ctrl s d o cb
  | qstream o cb => exact stream_ctrl s o cb

/-- Replaying the queue preserves the control fields. -/
theorem runActions_ctrl (q : List QueuedAction) :
    ∀ s : WebSocket, CtrlEq s (runActions s q).s := by
  induction q with
  | nil => intro s; exact ctrlEq_refl s
  | cons a rest ih =>
      intro s
      have h1 := runAction_ctrl s a
      cases hexn : (runAction s a).exn with
      | some e => simpa [runActions, hexn] using h1
      | none =>
          have h2 := ih (runAction s a).s
          simpa [runActions, hexn] using ctrlEq_trans h1 h2

/-- Releasing the queue preserves the control fields. -/
theorem executeQueueSends_ctrl (s : WebSocket) :
    CtrlEq s (executeQueueSends s).s := by
  unfold executeQueueSends
  cases hq : s.queue with
  | none => exact ctrlEq_refl s
  | some q =>
      exact ctrlEq_trans (⟨rfl, rfl, rfl, rfl⟩ :
        CtrlEq s { s with queue := none }) (runActions_ctrl q _)

/-- The stream push closure preserves the control fields. -/
theorem streamSend_ctrl (s : WebSocket) (d : JsData) (f : Bool) :
    CtrlEq s (streamSend s d f).s := by
  unfold streamSend
  cases hus : s.userStream with
  | none => exact ctrlEq_refl s
  | some ctx =>
      by_cases h1 : (s.readyState != OPEN) = true
      · simp only [if_pos h1]; exact ctrlEq_refl s
      · simp only [if_neg h1]
        by_cases h2 : (!f) = true
        · simp only [if_pos h2]; exact ctrlEq_refl s
        · simp only [if_neg h2]
          have h := ctrlEq_trans (⟨rfl, rfl, rfl, rfl⟩ :
            CtrlEq s { s with userStream := none })
            (executeQueueSends_ctrl { s with userStream := none })
          cases hexn : (executeQueueSends { s with userStream := none }).exn <;>
            simp only [hexn] <;> exact h

/-- The sendStream data handler preserves the control fields. -/
theorem sendStreamOnData_ctrl (s : WebSocket) (chunk : JsData) :
    CtrlEq s (sendStreamOnData s chunk).s := by
  unfold sendStreamOnData streamWrapperCb
  cases hst : s.streaming with
  | none => exact ctrlEq_refl s
  | some ctx =>
      by_cases h1 : (s.readyState != OPEN) = true
      · simp only [if_pos h1]; exact ⟨rfl, rfl, rfl, rfl⟩
      · simp only [if_neg h1]; exact ctrlEq_refl s

/-- The sendStream end handler preserves the control fields. -/
theorem sendStreamOnEnd_ctrl (s : WebSocket) :
    CtrlEq s (sendStreamOnEnd s).s := by
  unfold sendStreamOnEnd streamWrapperCb
  cases hst : s.streaming with
  | none => exact ctrlEq_refl s
  | some ctx =>
      by_cases h1 : (s.readyState != OPEN) = true
      · simp only [if_pos h1]; exact ⟨rfl, rfl, rfl, rfl⟩
      · simp only [if_neg h1]; exact ⟨rfl, rfl, rfl, rfl⟩

/-- The emit override preserves the control fields. -/
theorem emit_ctrl (s : WebSocket) (e : Ev) : CtrlEq s (WebSocket.emit s e).1 := by
  cases e <;> exact ⟨rfl, rfl, rfl, rfl⟩

/-- The receiver ping handler never changes the state. -/
theorem onReceiverPing_state (s : WebSocket) (d : JsData) (b : Bool) :
    (onReceiverPing s d b).s = s := by
  unfold onReceiverPing
  cases hexn : (WebSocket.pong s d
      (some { mask := some (!s.isServer), binary := some b })).exn with
  | some e => simp [hexn, pong_state]
  | none => simp [hexn, WebSocket.emit, pong_state]

/-- The case equations of close, for the soundness proof. -/
theorem close_state_closing (s : WebSocket) (c : Option Nat) (r : Option String)
    (h : s.readyState = CLOSING) : (WebSocket.close s c r).s = s := by
  simp [WebSocket.close, h, CLOSING, CONNECTING, OPEN]

/-- close from Connecting goes straight to Closed. -/
theorem close_state_connecting (s : WebSocket) (c : Option Nat) (r : Option String)
    (h : s.readyState = CONNECTING) :
    (WebSocket.close s c r).s = { s with readyState := CLOSED } := by
  simp [WebSocket.close, h, CLOSING, CONNECTING, OPEN]

/-- close from Closed throws and changes nothing. -/
theorem close_state_closed (s : WebSocket) (c : Option Nat) (r : Option String)
    (h : s.readyState = CLOSED) : (WebSocket.close s c r).s = s := by
  simp [WebSocket.close, h, CLOSING, CONNECTING, OPEN, CLOSED]

/-- close from Open goes to Closing, recording code and reason, and ends
the socket when one is present. -/
theorem close_state_open (s : WebSocket) (c : Option Nat) (r : Option String)
    (h : s.readyState = OPEN) :
    (WebSocket.close s c r).s =
      if s.socket then
        { s with
            readyState := CLOSING, closeCode := c, closeMessage := r, socket := false }
      else { s with readyState := CLOSING, closeCode := c, closeMessage := r } := by
  by_cases hs : s.socket <;>
    simp [WebSocket.close, closeOpen, WebSocket.terminate, h, hs, OPEN, CLOSING,
      CONNECTING, CLOSED]

/-- close makes an allowed transition and preserves the invariant. -/
theorem close_sound (s : WebSocket) (c : Option Nat) (r : Option String)
    (h : SessInv s) :
    allowedTransition s.readyState (WebSocket.close s c r).s.readyState = true ∧
    SessInv (WebSocket.close s c r).s := by
  obtain ⟨h1, h2, h3, h4⟩ := h
  rcases h4 with hr | hr | hr | hr
  · rw [close_state_connecting s c r hr, hr]
    constructor
    · rfl
    · exact ⟨fun _ => Or.inr rfl, fun _ => Or.inr rfl, fun hu => h3 hu,
        Or.inr (Or.inr (Or.inr rfl))⟩
  · -- Open
    have hpend : s.upgradePending = false := by
      cases hp : s.upgradePending
      · rfl
      · rcases h1 hp with hx | hx <;> rw [hr] at hx <;> exact absurd hx (by decide)
    have hupg : s.upgraded = true := by
      cases hu : s.upgraded
      · rcases h2 hu with hx | hx <;> rw [hr] at hx <;> exact absurd hx (by decide)
      · rfl
    rw [close_state_open s c r hr, hr]
    by_cases hs : s.socket <;> simp only [hs, if_true, if_false, Bool.false_eq_true]
    · constructor
      · rfl
      · exact ⟨fun hp => absurd hp (by simp [hpend]),
          fun hu => absurd hu (by simp [hupg]),
          fun hu => absurd hu (by simp [hupg]), Or.inr (Or.inr (Or.inl rfl))⟩
    · constructor
      · rfl
      · exact ⟨fun hp => absurd hp (by simp [hpend]),
          fun hu => absurd hu (by simp [hupg]),
          fun hu => absurd hu (by simp [hupg]), Or.inr (Or.inr (Or.inl rfl))⟩
  · rw [close_state_closing s c r hr]
    exact ⟨allowedTransition_refl _, h1, h2, h3, Or.inr (Or.inr (Or.inl hr))⟩
  · rw [close_state_closed s c r hr]
    exact ⟨allowedTransition_refl _, h1, h2, h3, Or.inr (Or.inr (Or.inr hr))⟩

/-- terminate makes an allowed transition and preserves the invariant. -/
theorem terminate_sound (s : WebSocket) (h : SessInv s) :
    allowedTransition s.readyState (WebSocket.terminate s).s.readyState = true ∧
    SessInv (WebSocket.terminate s).s := by
  obtain ⟨h1, h2, h3, h4⟩ := h
  by_cases hs : s.socket
  · have he : (WebSocket.terminate s).s = { s with socket := false } := by
      simp [WebSocket.terminate, hs]
    rw [he]
    exact ⟨allowedTransition_refl _, h1, h2, fun _ => rfl, h4⟩
  · by_cases hc : s.readyState = CONNECTING
    · have he : (WebSocket.terminate s).s = { s with readyState := CLOSED } := by
        simp [WebSocket.terminate, hs, hc, CONNECTING]
      rw [he, hc]
      constructor
      · rfl
      · exact ⟨fun _ => Or.inr rfl, fun _ => Or.inr rfl, fun hu => h3 hu,
          Or.inr (Or.inr (Or.inr rfl))⟩
    · have hc2 : ¬(s.readyState = 0) := by simpa [CONNECTING] using hc
      have he : (WebSocket.terminate s).s = s := by
        simp [WebSocket.terminate, hs, hc2, CONNECTING]
      rw [he]
      exact ⟨allowedTransition_refl _, h1, h2, h3, h4⟩

/-- The socket close handler always lands in Closed. -/
theorem onSocketClosed_rs (s : WebSocket) :
    (onSocketClosed s).1.readyState = CLOSED := by
  unfold onSocketClosed
  split
  · next hcl => simpa using hcl
  · rfl

/-- The socket close handler only touches the ready state and the
queue-unrelated close bookkeeping. -/
theorem onSocketClosed_ctrl2 (s : WebSocket) :
    (onSocketClosed s).1.upgraded = s.upgraded ∧
    (onSocketClosed s).1.socket = s.socket ∧
    (onSocketClosed s).1.upgradePending = s.upgradePending := by
  unfold onSocketClosed
  split
  · exact ⟨rfl, rfl, rfl⟩
  · exact ⟨rfl, rfl, rfl⟩

/-- The socket close handler makes an allowed transition and preserves
the invariant. -/
theorem onSocketClosed_sound (s : WebSocket) (h : SessInv s) :
    allowedTransition s.readyState (onSocketClosed s).1.readyState = true ∧
    SessInv (onSocketClosed s).1 := by
  obtain ⟨h1, h2, h3, h4⟩ := h
  obtain ⟨c1, c2, c3⟩ := onSocketClosed_ctrl2 s
  constructor
  · rw [onSocketClosed_rs]
    rcases h4 with hr | hr | hr | hr <;> rw [hr] <;> decide
  · refine ⟨fun _ => Or.inr (onSocketClosed_rs s),
      fun _ => Or.inr (onSocketClosed_rs s), fun hu => ?_,
      Or.inr (Or.inr (Or.inr (onSocketClosed_rs s)))⟩
    rw [c2]
    exact h3 (c1 ▸ hu)

/-- The state equation of the successful upgrade routine of the client
response handler. -/
theorem clientOnUpgrade_cases (s : WebSocket) (k : Option String) (e : String) :
    (clientOnUpgrade s k e).1 = { s with upgradePending := false } ∨
    (clientOnUpgrade s k e).1 = { s with upgradePending := false, queue := none } ∨
    (clientOnUpgrade s k e).1 =
      { s with
          readyState := OPEN, socket := true, upgraded := true,
          upgradePending := false } := by
  cases h1 : s.readyState == CLOSED with
  | true => left; simp [clientOnUpgrade, WebSocket.emit, h1]
  | false =>
      cases k with
      | none => right; left; simp [clientOnUpgrade, WebSocket.emit, h1]
      | some kk =>
          cases h2 : kk != e with
          | true => right; left; simp [clientOnUpgrade, WebSocket.emit, h1, h2]
          | false =>
              right; right
              simp [clientOnUpgrade, upgrade, WebSocket.emit, h1, h2]

/-- The client response upgrade handler, fired while scheduled, makes
an allowed transition and preserves the invariant. -/
theorem clientOnUpgrade_sound (s : WebSocket) (k : Option String) (e : String)
    (h : SessInv s) (hpend : s.upgradePending = true) :
    allowedTransition s.readyState (clientOnUpgrade s k e).1.readyState = true ∧
    SessInv (clientOnUpgrade s k e).1 := by
  obtain ⟨h1, h2, h3, h4⟩ := h
  rcases clientOnUpgrade_cases s k e with hc | hc | hc <;> rw [hc]
  · exact ⟨allowedTransition_refl _, fun hp => absurd hp (by simp),
      fun hu => h2 hu, fun hu => h3 hu, h4⟩
  · exact ⟨allowedTransition_refl _, fun hp => absurd hp (by simp),
      fun hu => h2 hu, fun hu => h3 hu, h4⟩
  · constructor
    · rcases h1 hpend with hr | hr <;> rw [hr] <;> rfl
    · exact ⟨fun hp => absurd hp (by simp), fun hu => absurd hu (by simp),
        fun hu => absurd hu (by simp), Or.inr (Or.inl rfl)⟩

/-- The state equation of the server-role deferred upgrade. -/
theorem serverTickUpgrade_state (s : WebSocket) :
    (serverTickUpgrade s).1 =
      { s with
          readyState := OPEN, socket := true, upgraded := true,
          upgradePending := false } := rfl

/-- The server-role deferred upgrade, fired while scheduled, makes an
allowed transition and preserves the invariant. -/
theorem serverTickUpgrade_sound (s : WebSocket) (h : SessInv s)
    (hpend : s.upgradePending = true) :
    allowedTransition s.readyState (serverTickUpgrade s).1.readyState = true ∧
    SessInv (serverTickUpgrade s).1 := by
  obtain ⟨h1, h2, h3, h4⟩ := h
  rw [serverTickUpgrade_state]
  constructor
  · rcases h1 hpend with hr | hr <;> rw [hr] <;> rfl
  · exact ⟨fun hp => absurd hp (by simp), fun hu => absurd hu (by simp),
      fun hu => absurd hu (by simp), Or.inr (Or.inl rfl)⟩

/-- The state equation of the receiver error handler. -/
theorem onReceiverError_state_some (s : WebSocket) (reason : String) (c : Nat) :
    (onReceiverError s reason (some c)).s = (WebSocket.close s (some c) (some "")).s ∨
    (onReceiverError s reason (some c)).s =
      { (WebSocket.close s (some c) (some "")).s with queue := none } := by
  unfold onReceiverError WebSocket.emit
  cases hexn : (WebSocket.close s (some c) (some "")).exn with
  | some e => left; simp [hexn]
  | none => right; simp [hexn]

/-- One step makes an allowed ready-state transition and preserves the
invariant. -/
theorem stepFn_sound (s : WebSocket) (st : Step) (h : SessInv s) :
    allowedTransition s.readyState (stepFn s st).readyState = true ∧
    SessInv (stepFn s st) := by
  cases st with
  | opClose c r => simpa [stepFn] using close_sound s c r h
  | opSend d o cb => simpa [stepFn] using step_of_ctrlEq h (send_ctrl s d o cb)
  | opPing d o =>
      have he : stepFn s (Step.opPing d o) = s := by simp [stepFn, ping_state]
      rw [he]
      exact ⟨allowedTransition_refl _, h⟩
  | opPong d o =>
      have he : stepFn s (Step.opPong d o) = s := by simp [stepFn, pong_state]
      rw [he]
      exact ⟨allowedTransition_refl _, h⟩
  | opStream o cb => simpa [stepFn] using step_of_ctrlEq h (stream_ctrl s o cb)
  | opTerminate => simpa [stepFn] using terminate_sound s h
  | evClientUpgrade k e =>
      by_cases hg : (!s.isServer && s.upgradePending) = true
      · have hpend : s.upgradePending = true := by
          have hg2 := hg
          simp only [Bool.and_eq_true] at hg2
          exact hg2.2
        simpa [stepFn, hg] using clientOnUpgrade_sound s k e h hpend
      · have hg2 : (!s.isServer && s.upgradePending) = false := by
          simpa using hg
        simp only [stepFn, hg2, Bool.false_eq_true, if_false]
        exact ⟨allowedTransition_refl _, h⟩
  | evServerTickUpgrade =>
      by_cases hg : (s.isServer && s.upgradePending) = true
      · have hpend : s.upgradePending = true := by
          have hg2 := hg
          simp only [Bool.and_eq_true] at hg2
          exact hg2.2
        simpa [stepFn, hg] using serverTickUpgrade_sound s h hpend
      · have hg2 : (s.isServer && s.upgradePending) = false := by simpa using hg
        simp only [stepFn, hg2, Bool.false_eq_true, if_false]
        exact ⟨allowedTransition_refl _, h⟩
  | evSocketClosed =>
      by_cases hg : s.upgraded = true
      · simpa [stepFn, hg] using onSocketClosed_sound s h
      · simp only [stepFn, hg, if_false]
        exact ⟨allowedTransition_refl _, h⟩
  | evHttpError r =>
      by_cases hg : (!s.isServer) = true
      · simpa [stepFn, hg] using step_of_ctrlEq h (emit_ctrl s (Ev.errorEv r))
      · have hg2 : (!s.isServer) = false := by simpa using hg
        simp only [stepFn, hg2, Bool.false_eq_true, if_false]
        exact ⟨allowedTransition_refl _, h⟩
  | evSenderError r =>
      by_cases hg : s.upgraded = true
      · simpa [stepFn, hg] using step_of_ctrlEq h (emit_ctrl s (Ev.errorEv r))
      · simp only [stepFn, hg, if_false]
        exact ⟨allowedTransition_refl _, h⟩
  | evReceiverText d =>
      by_cases hg : s.upgraded = true
      · simpa [stepFn, hg, onReceiverText] using
          step_of_ctrlEq h (emit_ctrl s (Ev.messageEv d false))
      · simp only [stepFn, hg, if_false]
        exact ⟨allowedTransition_refl _, h⟩
  | evReceiverBinary d =>
      by_cases hg : s.upgraded = true
      · simpa [stepFn, hg, onReceiverBinary] using
          step_of_ctrlEq h (emit_ctrl s (Ev.messageEv d true))
      · simp only [stepFn, hg, if_false]
        exact ⟨allowedTransition_refl _, h⟩
  | evReceiverPing d b =>
      by_cases hg : s.upgraded = true
      · have he : stepFn s (Step.evReceiverPing d b) = s := by
          simp [stepFn, hg, onReceiverPing_state]
        rw [he]
        exact ⟨allowedTransition_refl _, h⟩
      · simp only [stepFn, hg, if_false]
        exact ⟨allowedTransition_refl _, h⟩
  | evReceiverClose c r =>
      by_cases hg : s.upgraded = true
      · simpa [stepFn, hg, onReceiverClose] using close_sound s c r h
      · simp only [stepFn, hg, if_false]
        exact ⟨allowedTransition_refl _, h⟩
  | evReceiverError r c =>
      by_cases hg : s.upgraded = true
      · rcases c with _ | cc
        · have he : (onReceiverError s r none).s = { s with queue := none } := rfl
          simp only [stepFn, hg, if_true]
          rw [he]
          exact step_of_ctrlEq h ⟨rfl, rfl, rfl, rfl⟩
        · have hcs := close_sound s (some cc) (some "") h
          simp only [stepFn, hg, if_true]
          rcases onReceiverError_state_some s r cc with he | he <;> rw [he]
          · exact hcs
          · exact ⟨hcs.1, (step_of_ctrlEq hcs.2 ⟨rfl, rfl, rfl, rfl⟩).2⟩
      · simp only [stepFn, hg, if_false]
        exact ⟨allowedTransition_refl _, h⟩
  | evStreamData c =>
      simpa [stepFn] using step_of_ctrlEq h (sendStreamOnData_ctrl s c)
  | evStreamEnd =>
      simpa [stepFn] using step_of_ctrlEq h (sendStreamOnEnd_ctrl s)
  | evStreamPush d f =>
      simpa [stepFn] using step_of_ctrlEq h (streamSend_ctrl s d f)
  | evQueueRelease =>
      by_cases hg : s.releaseScheduled = true
      · have hc : CtrlEq s (executeQueueSends { s with releaseScheduled := false }).s :=
          ctrlEq_trans (⟨rfl, rfl, rfl, rfl⟩ :
            CtrlEq s { s with releaseScheduled := false })
            (executeQueueSends_ctrl { s with releaseScheduled := false })
        simpa [stepFn, hg] using step_of_ctrlEq h hc
      · simp only [stepFn, hg, if_false]
        exact ⟨allowedTransition_refl _, h⟩

/-- The invariant holds along every run. -/
theorem sessInv_runSteps (steps : List Step) :
    ∀ s : WebSocket, SessInv s → SessInv (runSteps s steps) := by
  induction steps with
  | nil => intro s h; exact h
  | cons st rest ih => intro s h; exact ih _ (stepFn_sound s st h).2

/-- All consecutive pairs of the ready trace from an invariant state
are allowed transitions. -/
theorem pathOk_readyTrace (steps : List Step) :
    ∀ s : WebSocket, SessInv s → pathOk (readyTrace s steps) = true := by
  induction steps with
  | nil => intro s _; rfl
  | cons st rest ih =>
      intro s h
      have hs := stepFn_sound s st h
      have htail := ih (stepFn s st) hs.2
      cases rest with
      | nil => simp [readyTrace, pathOk, hs.1]
      | cons st2 rest2 =>
          simp only [readyTrace, pathOk, Bool.and_eq_true] at htail ⊢
          exact ⟨hs.1, htail⟩

/-- terminate never throws. -/
theorem terminate_exn (s : WebSocket) : (WebSocket.terminate s).exn = none := by
  unfold WebSocket.terminate
  by_cases hs : s.socket = true
  · simp [hs]
  · by_cases hc : (s.readyState == CONNECTING) = true <;> simp [hs, hc]

/-- terminate leaves no socket handle behind. -/
theorem terminate_socket (s : WebSocket) : (WebSocket.terminate s).s.socket = false := by
  unfold WebSocket.terminate
  by_cases hs : s.socket = true
  · simp [hs]
  · have hs2 : s.socket = false := by simpa using hs
    by_cases hc : (s.readyState == CONNECTING) = true <;> simp [hs, hc, hs2]

/-- C2 amended: along every run of a client or server session from its
initial state, every ready-state transition lies in the chain
Connecting to Open to Closing to Closed together with the shortcuts
Connecting to Closed, Open to Closed (transport end or close without a
prior close call), and - server role only - Closed back to Open when
the deferred upgrade tick runs after an early close or terminate. -/
theorem readyState_path_amended (roleServer : Bool) (steps : List Step) :
    pathOk (readyTrace (initWS roleServer) steps) = true := by
  apply pathOk_readyTrace
  cases roleServer <;> decide

/-- C9: terminate can be called in any reachable state: it never
raises, severs the transport, and the session reaches Closed - at once
when the upgrade has not yet run, and through the transport close
notification that terminate triggers otherwise. -/
theorem terminate_total (roleServer : Bool) (steps : List Step) :
    (WebSocket.terminate (runSteps (initWS roleServer) steps)).exn = none ∧
    (WebSocket.terminate (runSteps (initWS roleServer) steps)).s.socket = false ∧
    ((runSteps (initWS roleServer) steps).upgraded = false →
      (WebSocket.terminate (runSteps (initWS roleServer) steps)).s.readyState =
        CLOSED) ∧
    ((runSteps (initWS roleServer) steps).upgraded = true →
      (onSocketClosed
        (WebSocket.terminate (runSteps (initWS roleServer) steps)).s).1.readyState =
        CLOSED) := by
  have hinv : SessInv (runSteps (initWS roleServer) steps) :=
    sessInv_runSteps steps (initWS roleServer) (by cases roleServer <;> decide)
  obtain ⟨h1, h2, h3, h4⟩ := hinv
  refine ⟨terminate_exn _, terminate_socket _, fun hu => ?_,
    fun _ => onSocketClosed_rs _⟩
  rcases h2 hu with hr | hr <;>
    simp [WebSocket.terminate, h3 hu, hr, CONNECTING, CLOSED]

/-- C9 witness: terminating a freshly constructed client session moves
it to Closed at once. -/
theorem terminate_total_witness :
    (WebSocket.terminate (runSteps (initWS false) [])).s.readyState = CLOSED := by
  exact (terminate_total false []).2.2.1 (by decide)
